import Mathlib

/-!
Shallow embedding of the uORM mapping/query engine
(`src/include/uORM/orm/Query.h`, `Mapper.h`, `Error.h`,
`src/include/uORM/driver/ConnectionPool.h`, `ConfigManager.h`)
and proofs about the behaviour its specification describes.
-/

namespace UORM

/-- `std::string::empty()` on the character data of a Lean `String`. -/
def strIsEmpty (s : String) : Bool :=
  s.data.isEmpty

/-- Number of occurrences of the placeholder character in a string
(used to compare `getWhere()` text with `getParams()` length). -/
def countQ (s : String) : Nat :=
  s.data.count '?'

/-- `s.find(pat) != std::string::npos`: substring containment test. -/
def containsSub (s pat : String) : Bool :=
  decide (List.IsInfix pat.data s.data)

/-- The `SqlValue` variant from `src/include/uORM/orm/SqlValue.h`:
`std::variant<int, long, long long, unsigned int, unsigned long long,
std::string, const char*, bool, double, std::nullptr_t>`.
Machine integers are modelled as mathematical integers (no claim here
depends on overflow) and `double` payloads are not inspected by any claim. -/
inductive SqlValue where
  | int (v : Int)
  | long (v : Int)
  | longlong (v : Int)
  | uint (v : Nat)
  | ulonglong (v : Nat)
  | string (v : String)
  | cstring (v : String)
  | bool (v : Bool)
  | double (v : Float)
  | null

/-- Builder state of `uORM::Query` (`src/include/uORM/orm/Query.h`):
WHERE text, ORDER BY / LIMIT / OFFSET texts, positional parameter list and
the pending logical connector (initialised to `"AND"`). -/
structure Query where
  whereClause : String := ""
  orderByClause : String := ""
  limitClause : String := ""
  offsetClause : String := ""
  params : List SqlValue := []
  nextConnector : String := "AND"

namespace Query

/-- A freshly constructed `Query`. -/
def init : Query := {}

/-- `Query::appendConnector`: if the WHERE text is non-empty, append
`" " + nextConnector_ + " "`; in all cases reset the connector to `"AND"`. -/
def appendConnector (q : Query) : Query :=
  if strIsEmpty q.whereClause then
    { q with nextConnector := "AND" }
  else
    { q with whereClause := q.whereClause ++ " " ++ q.nextConnector ++ " ",
             nextConnector := "AND" }

/-- `Query::appendCondition`: connector, then `col op ?`, then push the value. -/
def appendCondition (q : Query) (col op : String) (val : SqlValue) : Query :=
  let q := q.appendConnector
  { q with whereClause := q.whereClause ++ (col ++ " " ++ op ++ " ?"),
           params := q.params ++ [val] }

/-- `Query::appendConditionNoVal`: connector, then `col op`, no parameter. -/
def appendConditionNoVal (q : Query) (col op : String) : Query :=
  let q := q.appendConnector
  { q with whereClause := q.whereClause ++ (col ++ " " ++ op) }

/-- `Query::or_`. -/
def or_ (q : Query) : Query := { q with nextConnector := "OR" }

/-- `Query::and_`. -/
def and_ (q : Query) : Query := { q with nextConnector := "AND" }

/-- `Query::eq`. -/
def eq (q : Query) (col : String) (val : SqlValue) : Query :=
  q.appendCondition col "=" val

/-- `Query::ne`. -/
def ne (q : Query) (col : String) (val : SqlValue) : Query :=
  q.appendCondition col "!=" val

/-- `Query::gt`. -/
def gt (q : Query) (col : String) (val : SqlValue) : Query :=
  q.appendCondition col ">" val

/-- `Query::lt`. -/
def lt (q : Query) (col : String) (val : SqlValue) : Query :=
  q.appendCondition col "<" val

/-- `Query::ge`. -/
def ge (q : Query) (col : String) (val : SqlValue) : Query :=
  q.appendCondition col ">=" val

/-- `Query::le`. -/
def le (q : Query) (col : String) (val : SqlValue) : Query :=
  q.appendCondition col "<=" val

/-- `Query::like` (the `std::string` argument becomes the string variant). -/
def like (q : Query) (col : String) (val : String) : Query :=
  q.appendCondition col "LIKE" (SqlValue.string val)

/-- `Query::isNull`. -/
def isNull (q : Query) (col : String) : Query :=
  q.appendConditionNoVal col "IS NULL"

/-- `Query::isNotNull`. -/
def isNotNull (q : Query) (col : String) : Query :=
  q.appendConditionNoVal col "IS NOT NULL"

/-- `Query::between`: one connector, `col BETWEEN ? AND ?`, two parameters. -/
def between (q : Query) (col : String) (lo hi : SqlValue) : Query :=
  let q := q.appendConnector
  { q with whereClause := q.whereClause ++ (col ++ " BETWEEN ? AND ?"),
           params := q.params ++ [lo, hi] }

/-- The placeholder loop shared by `Query::in` and `Query::notIn`:
`ss << (i == 0 ? "?" : ", ?")` and `params_.push_back(values[i])`. -/
def inLoop : Query → List SqlValue → Bool → Query
  | q, [], _ => q
  | q, v :: vs, first =>
      inLoop
        { q with whereClause := q.whereClause ++ (if first then "?" else ", ?"),
                 params := q.params ++ [v] }
        vs false

/-- `Query::in`: empty list short-circuits to `1=0`, otherwise
`col IN (?, ?, …)` with one parameter per value. -/
def in_ (q : Query) (col : String) (values : List SqlValue) : Query :=
  if values.isEmpty then
    let q := q.appendConnector
    { q with whereClause := q.whereClause ++ "1=0" }
  else
    let q := q.appendConnector
    let q := { q with whereClause := q.whereClause ++ (col ++ " IN (") }
    let q := inLoop q values true
    { q with whereClause := q.whereClause ++ ")" }

/-- `Query::notIn`: empty list short-circuits to `1=1`, otherwise
`col NOT IN (?, ?, …)` with one parameter per value. -/
def notIn (q : Query) (col : String) (values : List SqlValue) : Query :=
  if values.isEmpty then
    let q := q.appendConnector
    { q with whereClause := q.whereClause ++ "1=1" }
  else
    let q := q.appendConnector
    let q := { q with whereClause := q.whereClause ++ (col ++ " NOT IN (") }
    let q := inLoop q values true
    { q with whereClause := q.whereClause ++ ")" }

/-- `Query::orderBy`. -/
def orderBy (q : Query) (col : String) (asc : Bool) : Query :=
  if strIsEmpty q.orderByClause then
    { q with orderByClause := " ORDER BY " ++ col ++ (if asc then " ASC" else " DESC") }
  else
    { q with orderByClause := q.orderByClause ++ ", " ++ col ++ (if asc then " ASC" else " DESC") }

/-- `Query::limit`. -/
def limit (q : Query) (n : Int) : Query :=
  { q with limitClause := " LIMIT " ++ toString n }

/-- `Query::offset`. -/
def offset (q : Query) (n : Int) : Query :=
  { q with offsetClause := " OFFSET " ++ toString n }

/-- `Query::getWhere`. -/
def getWhere (q : Query) : String := q.whereClause

/-- `Query::getParams`. -/
def getParams (q : Query) : List SqlValue := q.params

end Query

/-! ## Error model (`src/include/uORM/orm/Error.h`) -/

/-- The concrete subclasses of `uORM::Exception`: `ConfigurationError`,
`ConnectionError` and `SqlError` (both under `DatabaseError`), `OrmError`. -/
inductive UErr where
  | configurationError (msg : String)
  | connectionError (msg : String)
  | sqlError (msg : String)
  | ormError (msg : String)

/-- An exception reaching a Mapper `catch` clause: either one of this
system's own `uORM::Exception` kinds, or a plain `std::exception`
carrying its `what()` message. -/
inductive ExcKind where
  | uorm (e : UErr)
  | std (msg : String)

/-- The Mapper operations that wrap failures, with the message text each
one's `catch (const std::exception&)` clause prepends in `Mapper.h`. -/
inductive MapperOp where
  | save | update | remove | truncate | query | count

/-- The operation-specific message text prepended to `e.what()`. -/
def opMsg : MapperOp → String
  | .save => "保存失败: "
  | .update => "更新失败: "
  | .remove => "删除失败: "
  | .truncate => "清空表失败: "
  | .query => "查询失败: "
  | .count => "Count查询失败: "

/-- The two `catch` clauses at the end of every Mapper operation:
`catch (const uORM::Exception&) { throw; }` re-throws the system's own
errors unchanged, `catch (const std::exception& e)` wraps everything else
as `SqlError(opMsg + e.what())`. -/
def catchClauses (op : MapperOp) : ExcKind → ExcKind
  | .uorm e => .uorm e
  | .std m => .uorm (.sqlError (opMsg op ++ m))

/-- A Mapper operation body run inside its `try` block: a normal result
passes through, an exception goes through the `catch` clauses. -/
def runOp (op : MapperOp) (body : Except ExcKind Bool) : Except ExcKind Bool :=
  match body with
  | .ok b => .ok b
  | .error e => .error (catchClauses op e)

/-! ## Field metadata and the Mapper's SQL builders
(`src/include/uORM/orm/Reflection.h`, `Mapper.h`) -/

/-- One `FieldMeta` entry of a registered entity, together with the value
the entity holds in that field (`entity.*(field.member_ptr)`); a field
whose C++ type is `std::string` always holds the string alternative. -/
structure FieldMeta where
  column_name : String
  constraint_sql : String
  value : SqlValue

/-- `Mapper::isPrimaryKey`: `constraints.find("PRIMARY KEY") != npos`. -/
def isPrimaryKey (constraints : String) : Bool :=
  containsSub constraints "PRIMARY KEY"

/-- `Mapper::isAutoIncrement`: `constraints.find("AUTO_INCREMENT") != npos`. -/
def isAutoIncrement (constraints : String) : Bool :=
  containsSub constraints "AUTO_INCREMENT"

/-- `Mapper::hasDefaultConstraint`: `constraints.find("DEFAULT") != npos`. -/
def hasDefaultConstraint (constraints : String) : Bool :=
  containsSub constraints "DEFAULT"

/-- `Mapper::shouldSkipInsert`: skip auto-increment fields, and skip
string-typed fields whose value is empty and whose constraints carry
a DEFAULT tag. -/
def shouldSkipInsert (f : FieldMeta) : Bool :=
  if isAutoIncrement f.constraint_sql then true
  else
    match f.value with
    | SqlValue.string s => strIsEmpty s && hasDefaultConstraint f.constraint_sql
    | _ => false

/-- The column-list fold of `Mapper::save`:
`ss << (first ? "" : ", ") << dialect->quoteIdentifier(field.column_name)`
over the fields not skipped by `shouldSkipInsert`. -/
def colsLoop (quote : String → String) : List FieldMeta → Bool → String
  | [], _ => ""
  | f :: fs, first =>
      if shouldSkipInsert f then colsLoop quote fs first
      else (if first then "" else ", ") ++ quote f.column_name ++ colsLoop quote fs false

/-- The placeholder fold of `Mapper::save`: `ss << (first ? "" : ", ") << "?"`. -/
def placeholdersLoop : List FieldMeta → Bool → String
  | [], _ => ""
  | f :: fs, first =>
      if shouldSkipInsert f then placeholdersLoop fs first
      else (if first then "" else ", ") ++ "?" ++ placeholdersLoop fs false

/-- The parameter-binding fold of `Mapper::save`: values of the non-skipped
fields in traversal order (`index` increments once per bound value). -/
def bindLoop : List FieldMeta → List SqlValue
  | [] => []
  | f :: fs => if shouldSkipInsert f then bindLoop fs else f.value :: bindLoop fs

/-- The INSERT text built by `Mapper::save` before the optional
returning-id suffix. -/
def saveSql (quote : String → String) (table : String) (fields : List FieldMeta) : String :=
  "INSERT INTO " ++ quote table ++ " (" ++ colsLoop quote fields true
    ++ ") VALUES (" ++ placeholdersLoop fields true ++ ")"

/-- The SET-clause fold of `Mapper::update` over the non-primary-key fields. -/
def setLoop (quote : String → String) : List FieldMeta → Bool → String
  | [], _ => ""
  | f :: fs, first =>
      if isPrimaryKey f.constraint_sql then setLoop quote fs first
      else (if first then "" else ", ") ++ quote f.column_name ++ " = ?" ++ setLoop quote fs false

/-- The WHERE-clause fold of `Mapper::update` over the primary-key fields. -/
def pkWhereLoop (quote : String → String) : List FieldMeta → Bool → String
  | [], _ => ""
  | f :: fs, first =>
      if isPrimaryKey f.constraint_sql then
        (if first then "" else " AND ") ++ quote f.column_name ++ " = ?" ++ pkWhereLoop quote fs false
      else pkWhereLoop quote fs first

/-- The UPDATE text built by `Mapper::update`: the code appends
`" WHERE "` unconditionally and then only primary-key equality terms. -/
def updateSql (quote : String → String) (table : String) (fields : List FieldMeta) : String :=
  "UPDATE " ++ quote table ++ " SET " ++ setLoop quote fields true
    ++ " WHERE " ++ pkWhereLoop quote fields true

/-- The SELECT text built by `Mapper::select` from a `Query`. -/
def selectSql (quote : String → String) (table : String) (q : Query) : String :=
  let sql := "SELECT * FROM " ++ quote table
  let sql := if strIsEmpty q.getWhere then sql else sql ++ " WHERE " ++ q.getWhere
  sql ++ q.orderByClause ++ q.limitClause ++ q.offsetClause

/-- `Mapper::select`, with the database abstracted as a function from the
issued SQL text and positional parameters to the materialized entities. -/
def select {α : Type} (db : String → List SqlValue → List α)
    (quote : String → String) (table : String) (q : Query) : List α :=
  db (selectSql quote table q) q.getParams

/-- `Mapper::selectOne`: `if (results.empty()) return nullopt; return results[0];`. -/
def selectOne {α : Type} (db : String → List SqlValue → List α)
    (quote : String → String) (table : String) (q : Query) : Option α :=
  match select db quote table q with
  | [] => none
  | x :: _ => some x

/-- The SELECT text built by `Mapper::find` from a raw WHERE-clause string:
the `WHERE` keyword is appended only when the clause is non-empty. -/
def findSql (quote : String → String) (table : String) (whereClause : String) : String :=
  let sql := "SELECT * FROM " ++ quote table
  if strIsEmpty whereClause then sql else sql ++ " WHERE " ++ whereClause

/-- The SELECT text built by `Mapper::findOne`: as `find`, then `" LIMIT 1"`. -/
def findOneSql (quote : String → String) (table : String) (whereClause : String) : String :=
  findSql quote table whereClause ++ " LIMIT 1"

/-! ## Configuration (`src/include/uORM/driver/ConfigManager.h`) -/

/-- `uORM::DataBaseConfigData` (the driver-type field is irrelevant to
validity and omitted); `port` and `poolsize` are C++ `int`s, modelled as
mathematical integers (the comparisons involved cannot overflow). -/
structure DataBaseConfigData where
  hostname : String
  port : Int
  username : String
  password : String
  dataname : String
  poolsize : Int

/-- `DataBaseConfigData::isValid`, exactly as written in the source:
`!hostname.empty() && (port > 0 && port < 65535) && !username.empty()
&& !password.empty() && !dataname.empty() && poolsize > 0`. -/
def DataBaseConfigData.isValid (c : DataBaseConfigData) : Bool :=
  !strIsEmpty c.hostname && (decide (c.port > 0) && decide (c.port < 65535))
    && !strIsEmpty c.username && !strIsEmpty c.password && !strIsEmpty c.dataname
    && decide (c.poolsize > 0)

/-- The configuration-validity predicate in the spec's words: host name,
username, password and database name non-empty, port in 1–65535,
pool size greater than 0. Modelled from the spec for comparison with
`DataBaseConfigData.isValid`. -/
def specConfigValid (c : DataBaseConfigData) : Prop :=
  ¬ strIsEmpty c.hostname ∧ 1 ≤ c.port ∧ c.port ≤ 65535
    ∧ ¬ strIsEmpty c.username ∧ ¬ strIsEmpty c.password
    ∧ ¬ strIsEmpty c.dataname ∧ 0 < c.poolsize

/-! ## Connection pool acquisition
(`src/include/uORM/driver/ConnectionPool.h`, `getConnection`) -/

/-- A raw connection handle with its current liveness (`isValid()`). -/
structure Conn where
  id : Nat
  valid : Bool
deriving DecidableEq

/-- The observable steps of one `ConnectionPool::getConnection` call,
in the order the source performs them. -/
inductive PoolEvent where
  | lock
  | createAttempt
  | retFresh (c : Conn)
  | waitForReturn
  | pop (c : Conn)
  | unlock
  | validate (c : Conn)
  | discard (c : Conn)
  | recreate
  | throwConnErr
  | ret (c : Conn)
deriving DecidableEq

/-- The outcome of one `getConnection` call in a single-caller view:
a returned connection, blocking on the condition variable, or a thrown
`ConnectionError`. -/
inductive GetConnOutcome where
  | returned (c : Conn)
  | blocked
  | threw
deriving DecidableEq

/-- `ConnectionPool::getConnection`, modelled over the queued connections
and an oracle giving the result of the next `createRawConnection()` call
(`none` models a null return). Produces the event trace and the outcome. -/
def getConnection (queue : List Conn) (created : Option Conn) :
    List PoolEvent × GetConnOutcome :=
  match queue with
  | [] =>
      -- queue empty at entry: opportunistically create one extra connection
      match created with
      | some c =>
          if c.valid then ([.lock, .createAttempt, .retFresh c], .returned c)
          else ([.lock, .createAttempt, .waitForReturn], .blocked)
      | none => ([.lock, .createAttempt, .waitForReturn], .blocked)
  | c :: _ =>
      -- pop under the lock, release the lock, then re-validate
      let steps := [PoolEvent.lock, .pop c, .unlock, .validate c]
      if c.valid then (steps ++ [.ret c], .returned c)
      else
        match created with
        | some c2 =>
            if c2.valid then (steps ++ [.discard c, .recreate, .ret c2], .returned c2)
            else (steps ++ [.discard c, .recreate, .throwConnErr], .threw)
        | none => (steps ++ [.discard c, .recreate, .throwConnErr], .threw)

/-! ## Sequences of builder calls (for the placeholder/parameter invariant) -/

/-- One call to a predicate or connector method of `uORM::Query`. -/
inductive QCall where
  | eq (col : String) (v : SqlValue)
  | ne (col : String) (v : SqlValue)
  | gt (col : String) (v : SqlValue)
  | lt (col : String) (v : SqlValue)
  | ge (col : String) (v : SqlValue)
  | le (col : String) (v : SqlValue)
  | like (col : String) (v : String)
  | isNull (col : String)
  | isNotNull (col : String)
  | between (col : String) (lo hi : SqlValue)
  | inList (col : String) (vs : List SqlValue)
  | notInList (col : String) (vs : List SqlValue)
  | orConn
  | andConn

/-- Perform one builder call on a `Query`. -/
def applyCall (q : Query) : QCall → Query
  | .eq c v => q.eq c v
  | .ne c v => q.ne c v
  | .gt c v => q.gt c v
  | .lt c v => q.lt c v
  | .ge c v => q.ge c v
  | .le c v => q.le c v
  | .like c v => q.like c v
  | .isNull c => q.isNull c
  | .isNotNull c => q.isNotNull c
  | .between c lo hi => q.between c lo hi
  | .inList c vs => q.in_ c vs
  | .notInList c vs => q.notIn c vs
  | .orConn => q.or_
  | .andConn => q.and_

/-- Perform a sequence of builder calls, left to right. -/
def runCalls (q : Query) (cs : List QCall) : Query :=
  cs.foldl applyCall q

/-- The column-name arguments of one builder call. -/
def callCols : QCall → List String
  | .eq c _ => [c]
  | .ne c _ => [c]
  | .gt c _ => [c]
  | .lt c _ => [c]
  | .ge c _ => [c]
  | .le c _ => [c]
  | .like c _ => [c]
  | .isNull c => [c]
  | .isNotNull c => [c]
  | .between c _ _ => [c]
  | .inList c _ => [c]
  | .notInList c _ => [c]
  | .orConn => []
  | .andConn => []

/-- A column name is unambiguous when it contains no placeholder character. -/
def colOk (s : String) : Bool :=
  countQ s == 0

/-- Every column name in a call sequence is free of placeholder characters. -/
def colsOk (cs : List QCall) : Bool :=
  cs.all fun c => (callCols c).all colOk

/-! ## Separator joins (the normal form of the Mapper's first-flag folds) -/

/-- Join a list of strings, putting the separator before every element. -/
def tailJoin (sep : String) : List String → String
  | [] => ""
  | x :: xs => sep ++ x ++ tailJoin sep xs

/-- Join a list of strings with a separator between consecutive elements. -/
def sepJoin (sep : String) : List String → String
  | [] => ""
  | x :: xs => x ++ tailJoin sep xs

/-- The builder invariant relating WHERE text and parameter list: the
placeholder count of the WHERE text equals the parameter count, and the
pending connector contains no placeholder character. -/
def qInv (q : Query) : Prop :=
  countQ q.whereClause = q.params.length ∧ countQ q.nextConnector = 0

/-! ## Helper lemmas -/

theorem strIsEmpty_append (s t : String) :
    strIsEmpty (s ++ t) = (strIsEmpty s && strIsEmpty t) := by
  simp only [strIsEmpty, String.data_append]
  cases s.data <;> cases t.data <;> simp [List.isEmpty]

theorem countQ_append (s t : String) : countQ (s ++ t) = countQ s + countQ t := by
  simp [countQ, String.data_append]

/-! ## Claims -/

/-- Claim C10: with an empty WHERE-clause string, `Mapper::find` emits
exactly `SELECT * FROM <quoted table>` with no `WHERE` keyword, and
`Mapper::findOne` emits the same text followed by `LIMIT 1`. -/
theorem c10_find_empty_where_omits_keyword (quote : String → String) (table : String) :
    findSql quote table "" = "SELECT * FROM " ++ quote table
      ∧ findOneSql quote table "" = "SELECT * FROM " ++ quote table ++ " LIMIT 1" := by
  constructor <;> simp [findSql, findOneSql, strIsEmpty]

/-- Claim C9: `Mapper::selectOne` returns the head of `Mapper::select`'s
result list (absent when it is empty, the first entity otherwise), and the
request it issues to the database is exactly the one `select` issues —
`selectSql`, so no `LIMIT 1` is forced into the SQL. -/
theorem c9_selectOne_head_of_select {α : Type} (db : String → List SqlValue → List α)
    (quote : String → String) (table : String) (q : Query) :
    selectOne db quote table q = (select db quote table q).head?
      ∧ select db quote table q = db (selectSql quote table q) q.getParams := by
  refine ⟨?_, rfl⟩
  unfold selectOne
  cases select db quote table q <;> rfl

/-- Claim C7: a Mapper operation's `catch` clauses re-throw the system's own
`uORM::Exception` kinds unchanged, and wrap any other exception as a
`SqlError` whose message starts with the operation-specific text. -/
theorem c7_catch_wraps_once (op : MapperOp) (u : UErr) (m : String) (b : Bool) :
    runOp op (.ok b) = .ok b
      ∧ runOp op (.error (.uorm u)) = .error (.uorm u)
      ∧ runOp op (.error (.std m)) = .error (.uorm (.sqlError (opMsg op ++ m))) :=
  ⟨rfl, rfl, rfl⟩

/-- Claim C4: `Query::in` with an empty value vector appends exactly `1=0`
after the pending connector and adds no parameter; `Query::notIn` with an
empty vector appends exactly `1=1` and adds no parameter. -/
theorem c4_empty_in_tautology (q : Query) (col : String) :
    (q.in_ col []).getWhere = q.appendConnector.getWhere ++ "1=0"
      ∧ (q.in_ col []).getParams = q.getParams
      ∧ (q.notIn col []).getWhere = q.appendConnector.getWhere ++ "1=1"
      ∧ (q.notIn col []).getParams = q.getParams := by
  unfold Query.in_ Query.notIn Query.appendConnector Query.getWhere Query.getParams
  by_cases h : strIsEmpty q.whereClause <;> simp [h]

/-- Claim C5: `or_()` sets the connector for exactly the next appended
predicate and is then reset to AND: `eq(x,1).or_().eq(y,2).eq(z,3)` yields
`x = ? OR y = ? AND z = ?`, and after any predicate following `or_()` the
pending connector is back to `"AND"`. -/
theorem c5_or_one_shot (x y z c : String) (v1 v2 v3 v : SqlValue) (q : Query) :
    (((Query.init.eq x v1).or_.eq y v2).eq z v3).getWhere
        = x ++ " = ? OR " ++ y ++ " = ? AND " ++ z ++ " = ?"
      ∧ ((q.or_).eq c v).nextConnector = "AND" := by
  constructor
  · apply String.ext
    simp +decide [Query.init, Query.eq, Query.or_, Query.appendCondition,
      Query.appendConnector, Query.getWhere, strIsEmpty_append, String.data_append]
  · unfold Query.eq Query.appendCondition Query.appendConnector Query.or_
    by_cases h : strIsEmpty q.whereClause <;> simp [h]

theorem pkWhereLoop_eq_empty (quote : String → String) (fields : List FieldMeta)
    (first : Bool) (h : ∀ f ∈ fields, isPrimaryKey f.constraint_sql = false) :
    pkWhereLoop quote fields first = "" := by
  induction fields generalizing first with
  | nil => rfl
  | cons f fs ih =>
      have hf : isPrimaryKey f.constraint_sql = false := h f (by simp)
      simp only [pkWhereLoop, hf, Bool.false_eq_true, if_false]
      exact ih first fun g hg => h g (by simp [hg])

theorem update_zero_pk_dangling (quote : String → String) (table : String)
    (fields : List FieldMeta) (h : ∀ f ∈ fields, isPrimaryKey f.constraint_sql = false) :
    updateSql quote table fields
      = "UPDATE " ++ quote table ++ " SET " ++ setLoop quote fields true ++ " WHERE " := by
  unfold updateSql
  rw [pkWhereLoop_eq_empty quote fields true h]
  apply String.ext
  simp [String.data_append]

/-- Claim C1: `Mapper::update` on an entity type with zero primary-key-tagged
fields does not reject the call with an `OrmError` (no code path in
`Mapper.h` throws one); it builds and submits the statement
`UPDATE <table> SET … WHERE ` whose WHERE condition is empty — the source
appends `" WHERE "` unconditionally and the primary-key fold contributes
nothing. Evaluated here at a one-field entity with no primary key. -/
theorem c1_update_zero_pk_emits_dangling_where :
    updateSql (fun s => "`" ++ s ++ "`") "users" [⟨"name", "NOT NULL", SqlValue.string "Mug"⟩]
      = "UPDATE `users` SET `name` = ? WHERE " := by
  decide

/-- Claim C3: `ConnectionPool::getConnection` follows the stated step order.
With a non-empty queue: lock, pop one candidate, unlock, validate; a valid
candidate is returned, an invalid one is discarded and a replacement is
created synchronously, throwing `ConnectionError` when that yields no valid
connection. With an empty queue: one opportunistic creation is attempted
first and returned immediately when valid; only when it fails does the
caller block waiting for a returned connection. -/
theorem c3_getConnection_step_order (n m : Nat) (rest : List Conn) (cr : Option Conn) :
    getConnection (⟨n, true⟩ :: rest) cr
        = ([.lock, .pop ⟨n, true⟩, .unlock, .validate ⟨n, true⟩, .ret ⟨n, true⟩],
           .returned ⟨n, true⟩)
      ∧ getConnection (⟨n, false⟩ :: rest) (some ⟨m, true⟩)
        = ([.lock, .pop ⟨n, false⟩, .unlock, .validate ⟨n, false⟩,
            .discard ⟨n, false⟩, .recreate, .ret ⟨m, true⟩], .returned ⟨m, true⟩)
      ∧ getConnection (⟨n, false⟩ :: rest) (some ⟨m, false⟩)
        = ([.lock, .pop ⟨n, false⟩, .unlock, .validate ⟨n, false⟩,
            .discard ⟨n, false⟩, .recreate, .throwConnErr], .threw)
      ∧ getConnection (⟨n, false⟩ :: rest) none
        = ([.lock, .pop ⟨n, false⟩, .unlock, .validate ⟨n, false⟩,
            .discard ⟨n, false⟩, .recreate, .throwConnErr], .threw)
      ∧ getConnection [] (some ⟨m, true⟩)
        = ([.lock, .createAttempt, .retFresh ⟨m, true⟩], .returned ⟨m, true⟩)
      ∧ getConnection [] (some ⟨m, false⟩)
        = ([.lock, .createAttempt, .waitForReturn], .blocked)
      ∧ getConnection [] none
        = ([.lock, .createAttempt, .waitForReturn], .blocked) :=
  ⟨rfl, rfl, rfl, rfl, rfl, rfl, rfl⟩

/-- Counterexample to claim C8 as stated: the configuration with host `"h"`,
port 65535, user `"u"`, password `"p"`, database `"d"` and pool size 1
satisfies every constraint the claim states (port is within 1–65535, all
names non-empty, pool size positive), yet `DataBaseConfigData::isValid`
returns false, because the source tests `port < 65535`, not `port <= 65535`. -/
theorem c8_counterexample :
    specConfigValid ⟨"h", 65535, "u", "p", "d", 1⟩
      ∧ DataBaseConfigData.isValid ⟨"h", 65535, "u", "p", "d", 1⟩ = false := by
  constructor
  · unfold specConfigValid
    decide
  · decide

/-- Claim C8 (amended): a configuration is valid exactly when host name,
username, password and database name are non-empty, the port is in the
range 1–65534 (the source requires `port < 65535`), and the pool size is
positive. -/
theorem c8_isValid_iff (c : DataBaseConfigData) :
    c.isValid = true
      ↔ (strIsEmpty c.hostname = false ∧ 1 ≤ c.port ∧ c.port ≤ 65534
          ∧ strIsEmpty c.username = false ∧ strIsEmpty c.password = false
          ∧ strIsEmpty c.dataname = false ∧ 0 < c.poolsize) := by
  unfold DataBaseConfigData.isValid
  simp only [Bool.and_eq_true, Bool.not_eq_true', decide_eq_true_eq, and_assoc]
  constructor
  · rintro ⟨h1, h2, h3, h4, h5, h6, h7⟩
    exact ⟨h1, by omega, by omega, h4, h5, h6, h7⟩
  · rintro ⟨h1, h2, h3, h4, h5, h6, h7⟩
    exact ⟨h1, by omega, by omega, h4, h5, h6, h7⟩

theorem colsLoop_false (quote : String → String) (fs : List FieldMeta) :
    colsLoop quote fs false
      = tailJoin ", " ((fs.filter fun f => !shouldSkipInsert f).map fun f => quote f.column_name) := by
  induction fs with
  | nil => rfl
  | cons f fs ih =>
      by_cases h : shouldSkipInsert f <;>
        simp [colsLoop, h, List.filter_cons, ih, tailJoin]

theorem colsLoop_true (quote : String → String) (fs : List FieldMeta) :
    colsLoop quote fs true
      = sepJoin ", " ((fs.filter fun f => !shouldSkipInsert f).map fun f => quote f.column_name) := by
  induction fs with
  | nil => rfl
  | cons f fs ih =>
      by_cases h : shouldSkipInsert f <;>
        simp [colsLoop, h, List.filter_cons, ih, sepJoin, colsLoop_false]

theorem placeholdersLoop_false (fs : List FieldMeta) :
    placeholdersLoop fs false
      = tailJoin ", " ((fs.filter fun f => !shouldSkipInsert f).map fun _ => "?") := by
  induction fs with
  | nil => rfl
  | cons f fs ih =>
      by_cases h : shouldSkipInsert f <;>
        simp [placeholdersLoop, h, List.filter_cons, ih, tailJoin]

theorem placeholdersLoop_true (fs : List FieldMeta) :
    placeholdersLoop fs true
      = sepJoin ", " ((fs.filter fun f => !shouldSkipInsert f).map fun _ => "?") := by
  induction fs with
  | nil => rfl
  | cons f fs ih =>
      by_cases h : shouldSkipInsert f <;>
        simp [placeholdersLoop, h, List.filter_cons, ih, sepJoin, placeholdersLoop_false]

theorem bindLoop_eq (fs : List FieldMeta) :
    bindLoop fs = (fs.filter fun f => !shouldSkipInsert f).map fun f => f.value := by
  induction fs with
  | nil => rfl
  | cons f fs ih =>
      by_cases h : shouldSkipInsert f <;> simp [bindLoop, h, List.filter_cons, ih]

/-- Claim C6: the INSERT built by `Mapper::save` lists exactly the columns of
the fields not skipped by `shouldSkipInsert` (neither auto-increment nor
string-typed, empty and carrying a DEFAULT tag), with one placeholder per
listed column, and the parameters are bound positionally in that same
column order. -/
theorem c6_save_columns_and_binding (quote : String → String) (table : String)
    (fields : List FieldMeta) :
    saveSql quote table fields
        = "INSERT INTO " ++ quote table ++ " ("
          ++ sepJoin ", " ((fields.filter fun f => !shouldSkipInsert f).map fun f => quote f.column_name)
          ++ ") VALUES ("
          ++ sepJoin ", " ((fields.filter fun f => !shouldSkipInsert f).map fun _ => "?")
          ++ ")"
      ∧ bindLoop fields = (fields.filter fun f => !shouldSkipInsert f).map fun f => f.value := by
  constructor
  · unfold saveSql
    rw [colsLoop_true, placeholdersLoop_true]
  · exact bindLoop_eq fields

theorem countQ_lit_space : countQ " " = 0 := by decide

theorem countQ_lit_spaceQ : countQ " ?" = 1 := by decide

theorem countQ_lit_commaQ : countQ ", ?" = 1 := by decide

theorem countQ_lit_qmark : countQ "?" = 1 := by decide

theorem countQ_lit_between : countQ " BETWEEN ? AND ?" = 2 := by decide

theorem countQ_lit_inOpen : countQ " IN (" = 0 := by decide

theorem countQ_lit_notInOpen : countQ " NOT IN (" = 0 := by decide

theorem countQ_lit_close : countQ ")" = 0 := by decide

theorem countQ_lit_onezero : countQ "1=0" = 0 := by decide

theorem countQ_lit_oneone : countQ "1=1" = 0 := by decide

theorem countQ_lit_and : countQ "AND" = 0 := by decide

theorem countQ_lit_or : countQ "OR" = 0 := by decide

theorem appendConnector_countQ (q : Query) (hc : countQ q.nextConnector = 0) :
    countQ (q.appendConnector).whereClause = countQ q.whereClause := by
  unfold Query.appendConnector
  by_cases h : strIsEmpty q.whereClause <;>
    simp [h, countQ_append, hc, countQ_lit_space]

theorem appendConnector_params (q : Query) : (q.appendConnector).params = q.params := by
  unfold Query.appendConnector
  by_cases h : strIsEmpty q.whereClause <;> simp [h]

theorem appendConnector_conn (q : Query) : (q.appendConnector).nextConnector = "AND" := by
  unfold Query.appendConnector
  by_cases h : strIsEmpty q.whereClause <;> simp [h]

theorem appendCondition_inv (q : Query) (col op : String) (v : SqlValue)
    (hq : qInv q) (hcol : countQ col = 0) (hop : countQ op = 0) :
    qInv (q.appendCondition col op v) := by
  obtain ⟨h1, h2⟩ := hq
  unfold Query.appendCondition
  refine ⟨?_, ?_⟩
  · simp [countQ_append, appendConnector_countQ q h2, appendConnector_params,
      hcol, hop, h1, countQ_lit_space, countQ_lit_spaceQ]
  · simp [appendConnector_conn, countQ_lit_and]

theorem appendConditionNoVal_inv (q : Query) (col op : String)
    (hq : qInv q) (hcol : countQ col = 0) (hop : countQ op = 0) :
    qInv (q.appendConditionNoVal col op) := by
  obtain ⟨h1, h2⟩ := hq
  unfold Query.appendConditionNoVal
  refine ⟨?_, ?_⟩
  · simp [countQ_append, appendConnector_countQ q h2, appendConnector_params,
      hcol, hop, h1, countQ_lit_space]
  · simp [appendConnector_conn, countQ_lit_and]

theorem inLoop_spec (vs : List SqlValue) : ∀ (q : Query) (first : Bool),
    countQ (Query.inLoop q vs first).whereClause = countQ q.whereClause + vs.length
      ∧ (Query.inLoop q vs first).params.length = q.params.length + vs.length
      ∧ (Query.inLoop q vs first).nextConnector = q.nextConnector := by
  induction vs with
  | nil => intro q first; simp [Query.inLoop]
  | cons v vs ih =>
      intro q first
      obtain ⟨h1, h2, h3⟩ :=
        ih { q with whereClause := q.whereClause ++ (if first then "?" else ", ?"),
                    params := q.params ++ [v] } false
      have hstep : Query.inLoop q (v :: vs) first
          = Query.inLoop
              { q with whereClause := q.whereClause ++ (if first then "?" else ", ?"),
                       params := q.params ++ [v] } vs false := rfl
      rw [hstep]
      refine ⟨?_, ?_, ?_⟩
      · rw [h1]
        cases first <;>
          simp [countQ_append, countQ_lit_qmark, countQ_lit_commaQ] <;> omega
      · rw [h2]
        simp
        omega
      · rw [h3]

theorem in_inv (q : Query) (col : String) (vs : List SqlValue)
    (hq : qInv q) (hcol : countQ col = 0) : qInv (q.in_ col vs) := by
  obtain ⟨h1, h2⟩ := hq
  by_cases hvs : vs.isEmpty
  · refine ⟨?_, ?_⟩
    · simp [Query.in_, hvs, countQ_append, countQ_lit_onezero,
        appendConnector_countQ q h2, appendConnector_params, h1]
    · simp [Query.in_, hvs, appendConnector_conn, countQ_lit_and]
  · rw [Bool.not_eq_true] at hvs
    obtain ⟨g1, g2, g3⟩ :=
      inLoop_spec vs
        { q.appendConnector with
            whereClause := (q.appendConnector).whereClause ++ (col ++ " IN (") } true
    refine ⟨?_, ?_⟩
    · simp only [Query.in_, hvs, Bool.false_eq_true, if_false, countQ_append, g1, g2]
      simp [countQ_append, countQ_lit_inOpen, countQ_lit_close,
        appendConnector_countQ q h2, appendConnector_params, hcol, h1]
    · simp only [Query.in_, hvs, Bool.false_eq_true, if_false, g3]
      simp [appendConnector_conn, countQ_lit_and]

theorem notIn_inv (q : Query) (col : String) (vs : List SqlValue)
    (hq : qInv q) (hcol : countQ col = 0) : qInv (q.notIn col vs) := by
  obtain ⟨h1, h2⟩ := hq
  by_cases hvs : vs.isEmpty
  · refine ⟨?_, ?_⟩
    · simp [Query.notIn, hvs, countQ_append, countQ_lit_oneone,
        appendConnector_countQ q h2, appendConnector_params, h1]
    · simp [Query.notIn, hvs, appendConnector_conn, countQ_lit_and]
  · rw [Bool.not_eq_true] at hvs
    obtain ⟨g1, g2, g3⟩ :=
      inLoop_spec vs
        { q.appendConnector with
            whereClause := (q.appendConnector).whereClause ++ (col ++ " NOT IN (") } true
    refine ⟨?_, ?_⟩
    · simp only [Query.notIn, hvs, Bool.false_eq_true, if_false, countQ_append, g1, g2]
      simp [countQ_append, countQ_lit_notInOpen, countQ_lit_close,
        appendConnector_countQ q h2, appendConnector_params, hcol, h1]
    · simp only [Query.notIn, hvs, Bool.false_eq_true, if_false, g3]
      simp [appendConnector_conn, countQ_lit_and]

theorem applyCall_inv (q : Query) (c : QCall)
    (hq : qInv q) (hc : (callCols c).all colOk = true) : qInv (applyCall q c) := by
  have h2 := hq.2
  cases c with
  | eq col v | ne col v | gt col v | lt col v | ge col v | le col v =>
      simp only [callCols, List.all_cons, List.all_nil, Bool.and_true, colOk,
        beq_iff_eq] at hc
      exact appendCondition_inv q col _ v hq hc (by decide)
  | like col v =>
      simp only [callCols, List.all_cons, List.all_nil, Bool.and_true, colOk,
        beq_iff_eq] at hc
      exact appendCondition_inv q col _ _ hq hc (by decide)
  | isNull col | isNotNull col =>
      simp only [callCols, List.all_cons, List.all_nil, Bool.and_true, colOk,
        beq_iff_eq] at hc
      exact appendConditionNoVal_inv q col _ hq hc (by decide)
  | between col lo hi =>
      simp only [callCols, List.all_cons, List.all_nil, Bool.and_true, colOk,
        beq_iff_eq] at hc
      refine ⟨?_, ?_⟩
      · show countQ ((q.appendConnector).whereClause ++ (col ++ " BETWEEN ? AND ?"))
            = ((q.appendConnector).params ++ [lo, hi]).length
        simp [countQ_append, countQ_lit_between, appendConnector_countQ q h2,
          appendConnector_params, hc, hq.1]
      · show countQ (q.appendConnector).nextConnector = 0
        rw [appendConnector_conn]
        exact countQ_lit_and
  | inList col vs =>
      simp only [callCols, List.all_cons, List.all_nil, Bool.and_true, colOk,
        beq_iff_eq] at hc
      exact in_inv q col vs hq hc
  | notInList col vs =>
      simp only [callCols, List.all_cons, List.all_nil, Bool.and_true, colOk,
        beq_iff_eq] at hc
      exact notIn_inv q col vs hq hc
  | orConn => exact ⟨hq.1, countQ_lit_or⟩
  | andConn => exact ⟨hq.1, countQ_lit_and⟩

theorem runCalls_inv (cs : List QCall) (q : Query)
    (hq : qInv q) (hcs : colsOk cs = true) : qInv (runCalls q cs) := by
  induction cs generalizing q with
  | nil => exact hq
  | cons c cs ih =>
      simp only [colsOk, List.all_cons, Bool.and_eq_true] at hcs
      exact ih (applyCall q c) (applyCall_inv q c hq hcs.1) hcs.2

/-- Counterexample to claim C2 as stated: a column name may itself contain
the placeholder character. After the single call `eq("a?", 1)` the WHERE
text `a? = ?` contains two `?` characters but `getParams()` holds one
parameter. -/
theorem c2_counterexample :
    ¬ (countQ (runCalls Query.init [QCall.eq "a?" (SqlValue.int 1)]).getWhere
        = (runCalls Query.init [QCall.eq "a?" (SqlValue.int 1)]).getParams.length) := by
  decide

/-- Claim C2 (amended): for every sequence of predicate and connector calls
in which no column-name argument contains the `?` character, the length of
`getParams()` equals the number of `?` characters in `getWhere()`. -/
theorem c2_placeholder_param_invariant (cs : List QCall) (h : colsOk cs = true) :
    countQ (runCalls Query.init cs).getWhere = (runCalls Query.init cs).getParams.length :=
  (runCalls_inv cs Query.init ⟨by decide, by decide⟩ h).1

/-- Witness for the amended C2 on a concrete call sequence exercising
predicates, a connector and a multi-valued IN list. -/
theorem c2_placeholder_param_witness :
    countQ (runCalls Query.init
        [QCall.eq "age" (SqlValue.int 18), QCall.orConn,
         QCall.between "price" (SqlValue.int 1) (SqlValue.int 9),
         QCall.inList "id" [SqlValue.int 1, SqlValue.int 2],
         QCall.isNull "note"]).getWhere
      = (runCalls Query.init
        [QCall.eq "age" (SqlValue.int 18), QCall.orConn,
         QCall.between "price" (SqlValue.int 1) (SqlValue.int 9),
         QCall.inList "id" [SqlValue.int 1, SqlValue.int 2],
         QCall.isNull "note"]).getParams.length :=
  c2_placeholder_param_invariant
    [QCall.eq "age" (SqlValue.int 18), QCall.orConn,
     QCall.between "price" (SqlValue.int 1) (SqlValue.int 9),
     QCall.inList "id" [SqlValue.int 1, SqlValue.int 2],
     QCall.isNull "note"] (by decide)

end UORM
